import Mathlib

/-!
Shallow embedding of the TREC inspection-report generator (`helper.py`):
the record shapes consumed by the generator, the numbering helpers
(`convert_to_roman`, `convert_to_letter`), the input-normalization helpers
(`get_comment_text`, `get_inspection_status`), and the story-building core of
`generate_trec_pdf` (validation, sorting, block emission).

Loosely-typed Python dictionaries are embedded as structures of `Option`
fields: `none` models an absent key.  `dict.get(k, d)` is `Option.getD`;
a Python truthiness test on a string field is a test for `some s` with
`s ≠ ""`.  The HTML-entity decoder (`html.unescape`, a library function)
is an explicit function parameter `unescape`.
-/

/-- A comment record of a line item, as read by the generator. -/
structure Comment where
  order : Option Int := none
  label : Option String := none
  commentNumber : Option String := none
  text : Option String := none
  content : Option String := none
  commentText : Option String := none
  value : Option String := none
  type : Option String := none
  isFlagged : Bool := false
  photos : List String := []
  videos : List String := []
deriving DecidableEq

/-- A line-item record of a section, as read by the generator. -/
structure LineItem where
  order : Option Int := none
  name : Option String := none
  title : Option String := none
  inspectionStatus : Option String := none
  isDeficient : Bool := false
  comments : List Comment := []
deriving DecidableEq

/-- A section record, as read by the generator. -/
structure Section where
  order : Option Int := none
  sectionNumber : Option String := none
  name : Option String := none
  lineItems : List LineItem := []
deriving DecidableEq

/-- The metadata dictionary passed to `generate_trec_pdf`. -/
structure Metadata where
  reportId : Option String := none
  report_id : Option String := none
  inspectionDate : Option String := none
  propertyAddress : Option String := none
  inspectorName : Option String := none
  inspectorLicense : Option String := none
deriving DecidableEq

/-- The value/symbol table of `convert_to_roman`, pairing each entry of the
Python list `val` with the same-index entry of `syms`. -/
def romanTable : List (Nat × String) :=
  [(1000, "M"), (900, "CM"), (500, "D"), (400, "CD"),
   (100, "C"), (90, "XC"), (50, "L"), (40, "XL"),
   (10, "X"), (9, "IX"), (5, "V"), (4, "IV"),
   (1, "I")]

/-- Appending `n` copies of `s`, as the inner `for _ in range(num // val[i])`
loop of `convert_to_roman` does with `roman_num += syms[i]`. -/
def joinRep (s : String) (n : Nat) : String :=
  String.join (List.replicate n s)

/-- The `while num > 0` loop of `convert_to_roman`, operationally: the first
argument is the remaining suffix of the table (the Python index `i` points at
its head), the second is the current `num`, the third the accumulator
`roman_num`.  Running past the table end with a positive remainder — the
Python `IndexError` on `val[i]` — is `none`. -/
def roman_loop : List (Nat × String) → Nat → String → Option String
  | _, 0, acc => some acc
  | [], _ + 1, _ => none
  | (v, s) :: rest, n + 1, acc =>
      roman_loop rest ((n + 1) % v) (acc ++ joinRep s ((n + 1) / v))

/-- `convert_to_roman(num)`: the loop starting at index 0 with empty
accumulator; a non-positive `num` never enters the loop and yields `""`.
(The loop in fact never runs off the table — proved below — so the `getD ""`
default is never taken for positive input.) -/
def convert_to_roman (num : Int) : String :=
  if num ≤ 0 then "" else (roman_loop romanTable num.toNat "").getD ""

/-- `chr(65 + n)` for the letter labels. -/
def letterOf (n : Nat) : String :=
  String.singleton (Char.ofNat (65 + n))

/-- The recursion of `convert_to_letter` on non-negative input. -/
def letterLabel (n : Nat) : String :=
  if n < 26 then letterOf n
  else letterLabel (n / 26 - 1) ++ letterOf (n % 26)
termination_by n
decreasing_by
  have hlt : n / 26 < n := Nat.div_lt_self (by omega) (by omega)
  omega

/-- `convert_to_letter(num)`: empty string on negative input, else the
bijective base-26 letter label. -/
def convert_to_letter (num : Int) : String :=
  if num < 0 then "" else letterLabel num.toNat

theorem roman_loop_zero (table : List (Nat × String)) (acc : String) :
    roman_loop table 0 acc = some acc := by
  cases table <;> rfl

theorem roman_loop_isSome :
    ∀ (table : List (Nat × String)), (∃ p ∈ table, p.1 = 1) →
      ∀ (n : Nat) (acc : String), (roman_loop table n acc).isSome
  | [], h => by simp at h
  | (v, s) :: rest, h => by
    intro n acc
    cases n with
    | zero => simp [roman_loop]
    | succ m =>
      show (roman_loop rest ((m + 1) % v) (acc ++ joinRep s ((m + 1) / v))).isSome
      by_cases hv : v = 1
      · subst hv
        rw [Nat.mod_one, roman_loop_zero]
        rfl
      · obtain ⟨p, hp, hp1⟩ := h
        rcases List.mem_cons.mp hp with hhead | htail
        · exact absurd (by rw [hhead] at hp1; exact hp1) hv
        · exact roman_loop_isSome rest ⟨p, htail, hp1⟩ _ _

/-- Python truthiness of an optional string field: `some s` with `s ≠ ""`. -/
def truthyStr (o : Option String) : Option String :=
  match o with
  | some s => if s = "" then none else some s
  | none => none

/-- `escape_html_entities(text)`: empty text stays empty, otherwise the
HTML-entity decoder (`html.unescape`, passed here as `unescape`) is applied. -/
def escape_html_entities (unescape : String → String) (text : String) : String :=
  if text = "" then "" else unescape text

/-- Python `str.upper()` on the ASCII strings the generator handles:
uppercase every character.  (Defined by a structural map over the character
list so that concrete instances evaluate inside the kernel.) -/
def py_upper (s : String) : String :=
  String.mk (s.data.map Char.toUpper)

/-- `get_comment_text(comment)`: the first truthy value among the fields
`text`, `content`, `commentText`, `value`, in that order, decoded; `""` when
none is truthy. -/
def get_comment_text (unescape : String → String) (c : Comment) : String :=
  match [c.text, c.content, c.commentText, c.value].findSome? truthyStr with
  | some s => escape_html_entities unescape s
  | none => ""

/-- The `comment.get('type') == 'deficient' or comment.get('isFlagged')` test
of `get_inspection_status`. -/
def deficient_comment (c : Comment) : Bool :=
  (c.type == some "deficient") || c.isFlagged

/-- Tiers 2–5 of `get_inspection_status`: everything after the explicit
status check has fallen through. -/
def fallback_status (line_item : LineItem) : String :=
  if line_item.isDeficient then "D"
  else if line_item.comments.any deficient_comment then "D"
  else if !line_item.comments.isEmpty then "I"
  else ""

/-- `get_inspection_status(line_item)`: a truthy `inspectionStatus` whose
uppercasing lies in `{I, NI, NP, D}` is returned; anything else falls
through to the lower tiers. -/
def get_inspection_status (line_item : LineItem) : String :=
  match line_item.inspectionStatus with
  | some s =>
      if s ≠ "" ∧ py_upper s ∈ (["I", "NI", "NP", "D"] : List String) then py_upper s
      else fallback_status line_item
  | none => fallback_status line_item

/-- The explicit-status tier in isolation: `some v` exactly when the
`inspectionStatus` field is present, truthy, and uppercases into
`{I, NI, NP, D}` (then `v` is that uppercasing). -/
def explicitValid (line_item : LineItem) : Option String :=
  match line_item.inspectionStatus with
  | some s =>
      if s ≠ "" ∧ py_upper s ∈ (["I", "NI", "NP", "D"] : List String) then some (py_upper s)
      else none
  | none => none

/-- `total_media`: `len(photos) + len(videos)` of a comment. -/
def total_media (c : Comment) : Nat :=
  c.photos.length + c.videos.length

/-- The media-reference note of a comment: emitted only when media are
attached, with the singular/plural `item`/`items` wording of the f-string. -/
def media_note (c : Comment) : Option String :=
  if total_media c > 0 then
    some ("See attached media (" ++ toString (total_media c) ++ " item" ++
      (if total_media c > 1 then "s" else "") ++ ")")
  else none

/-- One point of typography: 1 inch = 72 points, as `reportlab.lib.units`. -/
def inchPts : ℚ := 72

/-- A renderable block of the story, tagged with the style name the code
attaches to it. -/
inductive Block where
  | checkboxMarker (status : String)
  | paragraph (style : String) (text : String)
  | spacer (width height : ℚ)
deriving DecidableEq

/-- A story element: either an atomic keep-together group of blocks or a
single free-flowing block. -/
inductive StoryElem where
  | keepTogether (blocks : List Block)
  | flow (b : Block)
deriving DecidableEq

/-- `sorted(xs, key=lambda x: x.get('order', 0))`: a stable sort on the
numeric order key, absent keys defaulting to 0. -/
def sortByOrder {α : Type} (key : α → Option Int) (l : List α) : List α :=
  l.mergeSort (fun a b => decide ((key a).getD 0 ≤ (key b).getD 0))

/-- The blocks a single comment contributes: optional label paragraph
(numbered when a comment number is truthy), optional text paragraph with
newlines turned into explicit breaks, optional media note. -/
def comment_blocks (unescape : String → String) (c : Comment) : List Block :=
  (match truthyStr c.label with
   | some lbl =>
       [Block.paragraph "CommentLabel"
         (match truthyStr c.commentNumber with
          | some num => num ++ ". " ++ lbl
          | none => lbl)]
   | none => []) ++
  (if get_comment_text unescape c ≠ "" then
     [Block.paragraph "CommentText" ((get_comment_text unescape c).replace "\n" "<br/>")]
   else []) ++
  (match media_note c with
   | some note => [Block.paragraph "MediaReference" note]
   | none => [])

/-- The `line_item_content` list built for one line item: checkbox marker,
header `"{letter}. {name}"`, the blocks of the sorted comments, and the
trailing small spacer. -/
def line_item_content (unescape : String → String) (item_idx : Nat)
    (line_item : LineItem) : List Block :=
  [Block.checkboxMarker (get_inspection_status line_item),
   Block.paragraph "LineItemHeader"
     (convert_to_letter item_idx ++ ". " ++ (line_item.name.getD (line_item.title.getD "")))] ++
  ((sortByOrder Comment.order line_item.comments).map (comment_blocks unescape)).flatten ++
  [Block.spacer 1 (inchPts / 10)]

/-- The section label: the truthy explicit `sectionNumber` if any, else the
Roman numeral of `section_idx + 1`. -/
def section_label (section_idx : Nat) (s : Section) : String :=
  match truthyStr s.sectionNumber with
  | some sn => sn
  | none => convert_to_roman (section_idx + 1)

/-- The story elements one section contributes: its header paragraph, one
keep-together group per sorted line item, and the trailing section spacer. -/
def section_story (unescape : String → String) (section_idx : Nat)
    (s : Section) : List StoryElem :=
  [StoryElem.flow (Block.paragraph "SectionHeader"
     (section_label section_idx s ++ ". " ++ py_upper (s.name.getD "")))] ++
  ((sortByOrder LineItem.order s.lineItems).enum.map
     (fun p => StoryElem.keepTogether (line_item_content unescape p.1 p.2))) ++
  [StoryElem.flow (Block.spacer 1 (inchPts / 5))]

/-- The full story `generate_trec_pdf` builds: sections sorted by order key,
each contributing its section story. -/
def build_story (unescape : String → String) (sections : List Section) : List StoryElem :=
  (((sortByOrder Section.order sections).enum.map
     (fun p => section_story unescape p.1 p.2))).flatten

/-- The document handed to the PDF backend: the story plus the report
identifier the custom canvas draws in every page header — the only part of
the metadata the generator reads. -/
structure Document where
  report_id : String
  story : List StoryElem
deriving DecidableEq

/-- `metadata.get('reportId', metadata.get('report_id', 'N/A'))`. -/
def extract_report_id (m : Metadata) : String :=
  m.reportId.getD (m.report_id.getD "N/A")

/-- `generate_trec_pdf(sections, metadata, output_path)`: raises
`ValueError` on an empty sections list, otherwise builds the document and
returns the output path (paired here with the document it wrote). -/
def generate_trec_pdf (unescape : String → String) (sections : List Section)
    (metadata : Metadata) (output_path : String) :
    Except String (String × Document) :=
  if sections.isEmpty then Except.error "Sections list cannot be empty"
  else Except.ok (output_path,
    { report_id := extract_report_id metadata,
      story := build_story unescape sections })

/-- The content blocks an emitted story element stands for. -/
def flatten_elem : StoryElem → List Block
  | StoryElem.keepTogether bs => bs
  | StoryElem.flow b => [b]

/-- All content blocks of a story, in order. -/
def flatten_story (story : List StoryElem) : List Block :=
  (story.map flatten_elem).flatten

/-- Modelled from the spec: the paginating layout engine (the reportlab
platypus machinery consuming the story) is not among the sources; per the
spec, an atomic keep-together group that cannot fit any single page (the
`fits` predicate abstracts the page-capacity test) degrades to emitting its
blocks individually, and every other element is emitted as given. -/
def place_elem (fits : List Block → Bool) : StoryElem → List StoryElem
  | StoryElem.keepTogether bs =>
      if fits bs then [StoryElem.keepTogether bs] else bs.map StoryElem.flow
  | StoryElem.flow b => [StoryElem.flow b]

/-- Modelled from the spec: the layout pass over the whole story. -/
def place_story (fits : List Block → Bool) (story : List StoryElem) : List StoryElem :=
  (story.map (place_elem fits)).flatten

theorem letterLabel_lt {n : Nat} (h : n < 26) : letterLabel n = letterOf n := by
  rw [letterLabel, if_pos h]

theorem letterLabel_ge {n : Nat} (h : 26 ≤ n) :
    letterLabel n = letterLabel (n / 26 - 1) ++ letterOf (n % 26) := by
  rw [letterLabel, if_neg (Nat.not_lt.mpr h)]

/-- Claim C9: `convert_to_roman` is total on all integers.  Non-positive
input never enters the loop and yields the empty string; for every input the
operational loop `roman_loop` terminates within the symbol table (the final
divisor 1 drains any remaining value), returning the same string the
function does — it never runs off the table, even outside 1..3999. -/
theorem claim_C9_roman_total (num : Int) :
    (num ≤ 0 → convert_to_roman num = "") ∧
    roman_loop romanTable num.toNat "" = some (convert_to_roman num) := by
  constructor
  · intro h
    simp [convert_to_roman, h]
  · have hs := roman_loop_isSome romanTable ⟨(1, "I"), by decide, rfl⟩ num.toNat ""
    obtain ⟨s, hs⟩ := Option.isSome_iff_exists.mp hs
    rw [hs]
    by_cases h : num ≤ 0
    · have h0 : num.toNat = 0 := Int.toNat_of_nonpos h
      rw [h0, roman_loop_zero] at hs
      simp only [convert_to_roman, if_pos h]
      exact congrArg some (Option.some.inj hs).symm
    · simp [convert_to_roman, h, hs]

theorem claim_C9_roman_total_witness :
    convert_to_roman (-5) = "" ∧
    roman_loop romanTable (4000 : Int).toNat "" = some (convert_to_roman 4000) :=
  ⟨(claim_C9_roman_total (-5)).1 (by decide), (claim_C9_roman_total 4000).2⟩

/-- Claim C5: the section label is the explicit (truthy) `sectionNumber`
when provided, else the uppercase Roman numeral of `index + 1`; and the
Roman conversion takes the standard subtractive values on
1, 4, 9, 40, 90 and 2024. -/
theorem claim_C5_section_label (section_idx : Nat) (s : Section) :
    (∀ sn, s.sectionNumber = some sn → sn ≠ "" → section_label section_idx s = sn) ∧
    ((s.sectionNumber = none ∨ s.sectionNumber = some "") →
      section_label section_idx s = convert_to_roman (section_idx + 1)) ∧
    convert_to_roman 1 = "I" ∧ convert_to_roman 4 = "IV" ∧ convert_to_roman 9 = "IX" ∧
    convert_to_roman 40 = "XL" ∧ convert_to_roman 90 = "XC" ∧
    convert_to_roman 2024 = "MMXXIV" := by
  refine ⟨?_, ?_, by decide, by decide, by decide, by decide, by decide, by decide⟩
  · intro sn hsn hne
    simp [section_label, truthyStr, hsn, hne]
  · rintro (h | h) <;> simp [section_label, truthyStr, h]

theorem claim_C5_section_label_witness :
    section_label 0 ({ sectionNumber := some "7" } : Section) = "7" ∧
    section_label 3 ({ name := some "ROOF" } : Section) = convert_to_roman 4 :=
  ⟨(claim_C5_section_label 0 _).1 "7" rfl (by decide),
   (claim_C5_section_label 3 _).2.1 (Or.inl rfl)⟩

/-- Claim C4: `convert_to_letter` is the bijective base-26 alphabetic
numbering: on 0 ≤ n < 26 it is the single letter `chr(65+n)`, on n ≥ 26 it
satisfies the recurrence `label(n) = label(n/26 - 1) ++ letter(n % 26)`,
negative input yields `""`, and the concrete values 0, 25, 26, 27, 51, 52
map to A, Z, AA, AB, AZ, BA. -/
theorem claim_C4_letter_label :
    (∀ num : Int, num < 0 → convert_to_letter num = "") ∧
    (∀ n : Nat, n < 26 → convert_to_letter n = letterOf n) ∧
    (∀ n : Nat, 26 ≤ n →
      convert_to_letter n = convert_to_letter ((n / 26 - 1 : Nat) : Int) ++ letterOf (n % 26)) ∧
    convert_to_letter 0 = "A" ∧ convert_to_letter 25 = "Z" ∧ convert_to_letter 26 = "AA" ∧
    convert_to_letter 27 = "AB" ∧ convert_to_letter 51 = "AZ" ∧
    convert_to_letter 52 = "BA" := by
  have hnn : ∀ n : Nat, convert_to_letter (n : Int) = letterLabel n := by
    intro n
    simp [convert_to_letter]
  refine ⟨?_, ?_, ?_, ?_, ?_, ?_, ?_, ?_, ?_⟩
  · intro num h
    simp [convert_to_letter, h]
  · intro n h
    rw [hnn, letterLabel_lt h]
  · intro n h
    rw [hnn, hnn, letterLabel_ge h]
  · show convert_to_letter ((0 : Nat) : Int) = "A"
    rw [hnn 0, letterLabel_lt (by norm_num)]; rfl
  · show convert_to_letter ((25 : Nat) : Int) = "Z"
    rw [hnn 25, letterLabel_lt (by norm_num)]; rfl
  · show convert_to_letter ((26 : Nat) : Int) = "AA"
    rw [hnn 26, letterLabel_ge (by norm_num)]
    norm_num
    rw [letterLabel_lt (by norm_num)]; rfl
  · show convert_to_letter ((27 : Nat) : Int) = "AB"
    rw [hnn 27, letterLabel_ge (by norm_num)]
    norm_num
    rw [letterLabel_lt (by norm_num)]; rfl
  · show convert_to_letter ((51 : Nat) : Int) = "AZ"
    rw [hnn 51, letterLabel_ge (by norm_num)]
    norm_num
    rw [letterLabel_lt (by norm_num)]; rfl
  · show convert_to_letter ((52 : Nat) : Int) = "BA"
    rw [hnn 52, letterLabel_ge (by norm_num)]
    norm_num
    rw [letterLabel_lt (by norm_num)]; rfl

theorem claim_C4_letter_label_witness :
    convert_to_letter (-3) = "" ∧
    convert_to_letter ((5 : Nat) : Int) = letterOf 5 ∧
    convert_to_letter ((30 : Nat) : Int) =
      convert_to_letter ((30 / 26 - 1 : Nat) : Int) ++ letterOf (30 % 26) :=
  ⟨claim_C4_letter_label.1 (-3) (by decide),
   claim_C4_letter_label.2.1 5 (by decide),
   claim_C4_letter_label.2.2.1 30 (by decide)⟩

theorem get_inspection_status_eq (li : LineItem) :
    get_inspection_status li =
      match explicitValid li with
      | some v => v
      | none => fallback_status li := by
  cases hli : li.inspectionStatus with
  | none => simp only [get_inspection_status, explicitValid, hli]
  | some s =>
      simp only [get_inspection_status, explicitValid, hli]
      by_cases h : s ≠ "" ∧ py_upper s ∈ (["I", "NI", "NP", "D"] : List String)
      · rw [if_pos h, if_pos h]
      · rw [if_neg h, if_neg h]

theorem deficient_comment_iff (c : Comment) :
    deficient_comment c = true ↔ (c.type = some "deficient" ∨ c.isFlagged = true) := by
  simp [deficient_comment]

/-- Claim C1: the derived inspection status obeys the five-tier priority,
first match winning: a valid explicit status (case-insensitively one of
I/NI/NP/D) is returned even when `isDeficient` is set; with no valid explicit
status, a true deficiency flag gives D; else a deficient-typed or flagged
comment gives D; else any comment at all gives I; else the status is blank.
An explicit status that does not normalize into the set is ignored
(`explicitValid` is `none` there) and derivation falls to the lower tiers. -/
theorem claim_C1_status_priority (li : LineItem) :
    (∀ v, explicitValid li = some v → get_inspection_status li = v) ∧
    (explicitValid li = none → li.isDeficient = true → get_inspection_status li = "D") ∧
    (explicitValid li = none → li.isDeficient = false →
      (∃ c ∈ li.comments, c.type = some "deficient" ∨ c.isFlagged = true) →
      get_inspection_status li = "D") ∧
    (explicitValid li = none → li.isDeficient = false →
      (∀ c ∈ li.comments, ¬(c.type = some "deficient" ∨ c.isFlagged = true)) →
      li.comments ≠ [] → get_inspection_status li = "I") ∧
    (explicitValid li = none → li.isDeficient = false → li.comments = [] →
      get_inspection_status li = "") := by
  refine ⟨?_, ?_, ?_, ?_, ?_⟩
  · intro v hv
    rw [get_inspection_status_eq, hv]
  · intro hex hdef
    rw [get_inspection_status_eq, hex]
    simp [fallback_status, hdef]
  · intro hex hdef hany
    rw [get_inspection_status_eq, hex]
    have h : li.comments.any deficient_comment = true := by
      rw [List.any_eq_true]
      obtain ⟨c, hc, hor⟩ := hany
      exact ⟨c, hc, (deficient_comment_iff c).mpr hor⟩
    simp [fallback_status, hdef, h]
  · intro hex hdef hnone hne
    rw [get_inspection_status_eq, hex]
    have h : li.comments.any deficient_comment = false := by
      rw [List.any_eq_false]
      intro c hc
      exact fun hd => hnone c hc ((deficient_comment_iff c).mp hd)
    simp [fallback_status, hdef, h, hne]
  · intro hex hdef hempty
    rw [get_inspection_status_eq, hex]
    simp [fallback_status, hdef, hempty]

theorem claim_C1_status_priority_witness :
    get_inspection_status
      ({ inspectionStatus := some "i", isDeficient := true } : LineItem) = "I" ∧
    get_inspection_status
      ({ inspectionStatus := some "BOGUS", isDeficient := true } : LineItem) = "D" :=
  ⟨(claim_C1_status_priority _).1 "I" (by decide),
   (claim_C1_status_priority _).2.1 (by decide) rfl⟩

/-- An optional string field that a Python truthiness test rejects: absent or
empty. -/
def blankField (o : Option String) : Prop :=
  o = none ∨ o = some ""

theorem truthyStr_of_blank {o : Option String} (h : blankField o) : truthyStr o = none := by
  rcases h with h | h <;> simp [truthyStr, h]

theorem truthyStr_of_nonempty {o : Option String} {s : String} (ho : o = some s)
    (hs : s ≠ "") : truthyStr o = some s := by
  simp [truthyStr, ho, hs]

/-- Claim C7: the extracted comment text is the decode of the first
non-empty value among `text`, `content`, `commentText`, `value`, in that
fixed order, and the empty string when all four are absent or empty. -/
theorem claim_C7_comment_text (unescape : String → String) (c : Comment) :
    (∀ s, c.text = some s → s ≠ "" → get_comment_text unescape c = unescape s) ∧
    (blankField c.text → ∀ s, c.content = some s → s ≠ "" →
      get_comment_text unescape c = unescape s) ∧
    (blankField c.text → blankField c.content → ∀ s, c.commentText = some s → s ≠ "" →
      get_comment_text unescape c = unescape s) ∧
    (blankField c.text → blankField c.content → blankField c.commentText →
      ∀ s, c.value = some s → s ≠ "" → get_comment_text unescape c = unescape s) ∧
    (blankField c.text → blankField c.content → blankField c.commentText →
      blankField c.value → get_comment_text unescape c = "") := by
  refine ⟨?_, ?_, ?_, ?_, ?_⟩
  · intro s hs hne
    simp [get_comment_text, List.findSome?, truthyStr_of_nonempty hs hne,
      escape_html_entities, hne]
  · intro h1 s hs hne
    simp [get_comment_text, List.findSome?, truthyStr_of_blank h1,
      truthyStr_of_nonempty hs hne, escape_html_entities, hne]
  · intro h1 h2 s hs hne
    simp [get_comment_text, List.findSome?, truthyStr_of_blank h1,
      truthyStr_of_blank h2, truthyStr_of_nonempty hs hne, escape_html_entities, hne]
  · intro h1 h2 h3 s hs hne
    simp [get_comment_text, List.findSome?, truthyStr_of_blank h1,
      truthyStr_of_blank h2, truthyStr_of_blank h3, truthyStr_of_nonempty hs hne,
      escape_html_entities, hne]
  · intro h1 h2 h3 h4
    simp [get_comment_text, List.findSome?, truthyStr_of_blank h1,
      truthyStr_of_blank h2, truthyStr_of_blank h3, truthyStr_of_blank h4]

theorem claim_C7_comment_text_witness :
    get_comment_text (fun s => s ++ "!")
      ({ text := some "", content := some "hi" } : Comment) = "hi" ++ "!" :=
  (claim_C7_comment_text (fun s => s ++ "!") _).2.1 (Or.inr rfl) "hi" rfl (by decide)

/-- Claim C8: the media count of a comment is the sum of the lengths of its
photo and video lists; a media note exists exactly when that count is
positive; a single attached item is worded `1 item`, two or more are worded
`N items`. -/
theorem claim_C8_media_note (c : Comment) :
    total_media c = c.photos.length + c.videos.length ∧
    ((media_note c).isSome ↔ 0 < total_media c) ∧
    (total_media c = 1 → media_note c = some "See attached media (1 item)") ∧
    (2 ≤ total_media c →
      media_note c = some ("See attached media (" ++ toString (total_media c) ++ " items)")) := by
  refine ⟨rfl, ?_, ?_, ?_⟩
  · by_cases h : 0 < total_media c <;> simp [media_note, h]
  · intro h1
    simp [media_note, h1]
    decide
  · intro h2
    have h0 : total_media c > 0 := by omega
    have h1 : total_media c > 1 := by omega
    simp only [media_note, if_pos h0, if_pos h1]
    have hs : (" item" ++ "s" : String) = " items" := by decide
    have hp : (" items" ++ ")" : String) = " items)" := by decide
    rw [String.append_assoc ("See attached media (" ++ toString (total_media c)) " item" "s", hs,
      String.append_assoc ("See attached media (" ++ toString (total_media c)) " items" ")", hp]

theorem claim_C8_media_note_witness :
    media_note ({ photos := ["p1"] } : Comment) = some "See attached media (1 item)" ∧
    media_note ({ photos := ["p1"], videos := ["v1", "v2"] } : Comment) =
      some ("See attached media (" ++ toString (3 : Nat) ++ " items)") :=
  ⟨(claim_C8_media_note _).2.2.1 rfl,
   (claim_C8_media_note ({ photos := ["p1"], videos := ["v1", "v2"] } : Comment)).2.2.2
     (by decide)⟩

theorem sortByOrder_spec {α : Type} (key : α → Option Int) (l : List α) :
    ((sortByOrder key l).Pairwise fun a b => (key a).getD 0 ≤ (key b).getD 0) ∧
    (sortByOrder key l).Perm l ∧
    ∀ a b, List.Sublist [a, b] l → (key a).getD 0 ≤ (key b).getD 0 →
      List.Sublist [a, b] (sortByOrder key l) := by
  have htrans : ∀ a b c : α,
      decide ((key a).getD 0 ≤ (key b).getD 0) = true →
      decide ((key b).getD 0 ≤ (key c).getD 0) = true →
      decide ((key a).getD 0 ≤ (key c).getD 0) = true := by
    intro a b c hab hbc
    simp only [decide_eq_true_eq] at *
    omega
  have htotal : ∀ a b : α,
      (decide ((key a).getD 0 ≤ (key b).getD 0) ||
        decide ((key b).getD 0 ≤ (key a).getD 0)) = true := by
    intro a b
    simp only [Bool.or_eq_true, decide_eq_true_eq]
    omega
  unfold sortByOrder
  refine ⟨?_, List.mergeSort_perm l _, ?_⟩
  · have h := List.sorted_mergeSort htrans htotal l
    exact h.imp (by intro a b hab; simpa using hab)
  · intro a b hsub hab
    exact List.pair_sublist_mergeSort htrans htotal (by simpa using hab) hsub

/-- Claim C6: sections are laid out in ascending order of their numeric
order key (absent keys default to 0), line items likewise within a section
and comments likewise within a line item, ties keeping the original input
order: each of the three sorts is sorted on the key, is a permutation of its
input, and preserves the relative order of any input pair already in key
order (stability). -/
theorem claim_C6_stable_order :
    (∀ l : List Section,
      ((sortByOrder Section.order l).Pairwise fun a b => a.order.getD 0 ≤ b.order.getD 0) ∧
      (sortByOrder Section.order l).Perm l ∧
      ∀ a b, List.Sublist [a, b] l → a.order.getD 0 ≤ b.order.getD 0 →
        List.Sublist [a, b] (sortByOrder Section.order l)) ∧
    (∀ l : List LineItem,
      ((sortByOrder LineItem.order l).Pairwise fun a b => a.order.getD 0 ≤ b.order.getD 0) ∧
      (sortByOrder LineItem.order l).Perm l ∧
      ∀ a b, List.Sublist [a, b] l → a.order.getD 0 ≤ b.order.getD 0 →
        List.Sublist [a, b] (sortByOrder LineItem.order l)) ∧
    (∀ l : List Comment,
      ((sortByOrder Comment.order l).Pairwise fun a b => a.order.getD 0 ≤ b.order.getD 0) ∧
      (sortByOrder Comment.order l).Perm l ∧
      ∀ a b, List.Sublist [a, b] l → a.order.getD 0 ≤ b.order.getD 0 →
        List.Sublist [a, b] (sortByOrder Comment.order l)) :=
  ⟨fun l => sortByOrder_spec Section.order l,
   fun l => sortByOrder_spec LineItem.order l,
   fun l => sortByOrder_spec Comment.order l⟩

theorem claim_C6_stable_order_witness :
    List.Sublist
      [({ order := some 1, name := some "A" } : Section),
       ({ order := some 1, name := some "B" } : Section)]
      (sortByOrder Section.order
        [({ order := some 1, name := some "A" } : Section),
         ({ order := some 1, name := some "B" } : Section)]) :=
  (claim_C6_stable_order.1 _).2.2 _ _ (List.Sublist.refl _) (by decide)

/-- Claim C3: calling the render entry point with an empty sections list
fails with the validation error, for every metadata value, every decoder and
every output path: no document is built and no destination path is ever
returned to the caller. -/
theorem claim_C3_empty_sections_error (unescape : String → String)
    (metadata : Metadata) (output_path : String) :
    generate_trec_pdf unescape [] metadata output_path =
      Except.error "Sections list cannot be empty" := rfl

/-- Claim C10: the generator reads the metadata only through the report
identifier (`reportId`, falling back to `report_id`, then `"N/A"`): two
metadata values whose extracted identifiers agree produce identical results,
and the `inspectionDate`, `propertyAddress`, `inspectorName` and
`inspectorLicense` fields never influence the generated output. -/
theorem claim_C10_metadata_noninterference (unescape : String → String)
    (sections : List Section) (output_path : String) :
    (∀ m1 m2 : Metadata, extract_report_id m1 = extract_report_id m2 →
      generate_trec_pdf unescape sections m1 output_path =
        generate_trec_pdf unescape sections m2 output_path) ∧
    (∀ (m : Metadata) (d p n l : Option String),
      generate_trec_pdf unescape sections
        { m with inspectionDate := d, propertyAddress := p,
                 inspectorName := n, inspectorLicense := l } output_path =
      generate_trec_pdf unescape sections m output_path) := by
  constructor
  · intro m1 m2 h
    unfold generate_trec_pdf
    rw [h]
  · intro m d p n l
    rfl

theorem claim_C10_metadata_noninterference_witness :
    generate_trec_pdf id [({ name := some "roof" } : Section)]
      ({ reportId := some "R-1", inspectionDate := some "2025-01-01" } : Metadata) "out.pdf" =
    generate_trec_pdf id [({ name := some "roof" } : Section)]
      ({ reportId := some "R-1", inspectionDate := some "2025-02-02" } : Metadata) "out.pdf" :=
  (claim_C10_metadata_noninterference id _ "out.pdf").1 _ _ rfl

theorem flatten_map_singleton {α : Type} (l : List α) :
    (l.map (fun a => [a])).flatten = l := by
  induction l with
  | nil => rfl
  | cons a t ih => simp [ih]

theorem flatten_place_elem (fits : List Block → Bool) (e : StoryElem) :
    flatten_story (place_elem fits e) = flatten_elem e := by
  cases e with
  | keepTogether bs =>
      cases h : fits bs with
      | true => simp [place_elem, flatten_story, flatten_elem, h]
      | false =>
          simp [place_elem, flatten_story, flatten_elem, h, List.map_map, Function.comp_def,
            flatten_map_singleton]
  | flow b => simp [place_elem, flatten_story, flatten_elem]

theorem flatten_story_append (s t : List StoryElem) :
    flatten_story (s ++ t) = flatten_story s ++ flatten_story t := by
  simp [flatten_story]

theorem flatten_place_story (fits : List Block → Bool) (story : List StoryElem) :
    flatten_story (place_story fits story) = flatten_story story := by
  induction story with
  | nil => rfl
  | cons e rest ih =>
      have h1 : place_story fits (e :: rest) = place_elem fits e ++ place_story fits rest := by
        simp [place_story]
      have h2 : flatten_story (e :: rest) = flatten_elem e ++ flatten_story rest := by
        simp [flatten_story]
      rw [h1, flatten_story_append, flatten_place_elem, ih, h2]

/-- Claim C2: an atomic keep-together group that cannot fit any single page
(the `fits` test rejects it) is abandoned and emitted as its individual
constituent blocks — a soft degradation, not a failure: placement of any
story preserves the exact sequence of content blocks, and in particular an
oversized line item still contributes exactly its `line_item_content`
blocks, nothing lost or truncated. -/
theorem claim_C2_oversized_degrades (fits : List Block → Bool) :
    (∀ bs, fits bs = false →
      place_elem fits (StoryElem.keepTogether bs) = bs.map StoryElem.flow) ∧
    (∀ story, flatten_story (place_story fits story) = flatten_story story) ∧
    (∀ (unescape : String → String) (item_idx : Nat) (li : LineItem),
      flatten_story
        (place_elem fits (StoryElem.keepTogether (line_item_content unescape item_idx li))) =
        line_item_content unescape item_idx li) := by
  refine ⟨?_, flatten_place_story fits, ?_⟩
  · intro bs h
    simp [place_elem, h]
  · intro unescape item_idx li
    rw [flatten_place_elem]
    rfl

theorem claim_C2_oversized_degrades_witness :
    place_elem (fun _ => false) (StoryElem.keepTogether [Block.spacer 1 1]) =
      [Block.spacer 1 1].map StoryElem.flow :=
  (claim_C2_oversized_degrades (fun _ => false)).1 _ rfl
